import Mathlib

/-!
Shallow embedding of the AppScale tools local-state manager
(`lib/local_state.py`, class `LocalState`) and proofs about its
specification.

Modelling conventions:
* Python strings are modelled as `List Char` (`Str`), which gives us the
  slicing, filtering and length reasoning the source performs.
* The local filesystem is modelled as a map from path to file content
  (`FS := Str → Option Content`).  File contents are either raw strings
  (the secret file) or structured values for the YAML/JSON files: the
  YAML/JSON codecs are Python standard-library collaborators external to
  this repository, so serialisation is abstracted as storing the
  structured value itself; read-back through the codec is its contract.
* Python exceptions become an explicit error type `PyError`; a function
  that can raise returns `Except PyError _`.
* Randomness (`uuid.uuid4()`) and network answers
  (`AppControllerClient.get_role_info`, `get_all_public_ips`) are passed
  in as explicit parameters.
-/

/-- Python strings, modelled as lists of characters. -/
abbrev Str := List Char

/-- The ASCII apostrophe character, used in source error messages. -/
def apostrophe : Char := Char.ofNat 39

/-- One node record of the locations.json roster: a dict with at least the
keys `public_ip`, `private_ip` and `jobs` (the role names). -/
structure Node where
  public_ip : Str
  private_ip : Str
  jobs : List Str
deriving DecidableEq

/-- The scalar contents written to locations.yaml by
`LocalState.update_local_metadata` (the `yaml_contents` dict). -/
structure YamlContents where
  load_balancer : Str
  instance_id : Str
  table : Str
  secret : Str
  db_master : Str
  ips : List Str
  infrastructure : Str
  group : Str
deriving DecidableEq

/-- Content of one file on the modelled filesystem.  `str` is a raw text
file (the secret key file); `yaml`/`json` hold the structured value whose
serialisation the external YAML/JSON codec owns. -/
inductive Content where
  | str (s : Str)
  | yaml (y : YamlContents)
  | json (roster : List Node)
deriving DecidableEq

/-- The local filesystem: a map from path to file content. -/
def FS := Str → Option Content

/-- Writing a file (Python `open(path, "w")` followed by `write`). -/
def writeFS (p : Str) (c : Content) (fs : FS) : FS :=
  fun q => if q = p then some c else fs q

/-- The Python exceptions the embedded `LocalState` code can raise. -/
inductive PyError where
  | badConfiguration (msg : Str)
  | appScaleError (msg : Str)
  | shellError (msg : Str)
  | osError (path : Str)
  | ioError (path : Str)
deriving DecidableEq

/-- Equality of `Except` results is decidable when both component types
have decidable equality (needed to evaluate concrete runs with `decide`). -/
instance {ε α : Type} [DecidableEq ε] [DecidableEq α] :
    DecidableEq (Except ε α) := fun a b =>
  match a, b with
  | .ok x, .ok y =>
      if h : x = y then .isTrue (by rw [h])
      else .isFalse (fun hc => h (by injection hc))
  | .error x, .error y =>
      if h : x = y then .isTrue (by rw [h])
      else .isFalse (fun hc => h (by injection hc))
  | .ok _, .error _ => .isFalse (fun hc => Except.noConfusion hc)
  | .error _, .ok _ => .isFalse (fun hc => Except.noConfusion hc)

/-- `os.remove(path)`: deletes the file, raising `OSError` when the path
does not exist. -/
def removeFS (p : Str) (fs : FS) : Except PyError FS :=
  match fs p with
  | some _ => .ok (fun q => if q = p then none else fs q)
  | none => .error (.osError p)

/-- `LocalState.DEFAULT_NUM_RETRIES`. -/
def DEFAULT_NUM_RETRIES : Nat := 5

/-- `LocalState.SECRET_KEY_LENGTH`. -/
def SECRET_KEY_LENGTH : Nat := 32

/-- `LocalState.LOCAL_APPSCALE_PATH`: `os.path.expanduser("~")` is
environment-dependent; the home directory is abstracted as `~` and
`os.sep` as `/`. -/
def LOCAL_APPSCALE_PATH : Str := ("~/.appscale/").toList

/-- `LocalState.get_secret_key_location`. -/
def get_secret_key_location (keyname : Str) : Str :=
  LOCAL_APPSCALE_PATH ++ keyname ++ (".secret").toList

/-- `LocalState.get_locations_yaml_location`. -/
def get_locations_yaml_location (keyname : Str) : Str :=
  LOCAL_APPSCALE_PATH ++ ("locations-").toList ++ keyname ++ (".yaml").toList

/-- `LocalState.get_locations_json_location`. -/
def get_locations_json_location (keyname : Str) : Str :=
  LOCAL_APPSCALE_PATH ++ ("locations-").toList ++ keyname ++ (".json").toList

/-- The message of the `BadConfigurationException` raised by
`ensure_appscale_isnt_running`. -/
def alreadyRunningMsg : Str :=
  ("AppScale is already running. Terminate it or use the --force flag to run anyways.").toList

/-- `LocalState.ensure_appscale_isnt_running`: returns immediately when
`force` is set, otherwise raises `BadConfigurationException` when the
locations.yaml file for `keyname` exists.  Its only filesystem interaction
is the `os.path.exists` read, so the state is returned unchanged on
success. -/
def ensure_appscale_isnt_running (fs : FS) (keyname : Str) (force : Bool) :
    Except PyError FS :=
  if force then .ok fs
  else if (fs (get_locations_yaml_location keyname)).isSome then
    .error (.badConfiguration alreadyRunningMsg)
  else .ok fs

/-- `LocalState.generate_secret_key`: the fresh `uuid.uuid4()` string is an
explicit parameter `u`; the source computes
`str(uuid.uuid4()).replace('-', '')[:SECRET_KEY_LENGTH]` (removing every
dash, then truncating) and writes the key to the secret file. -/
def generate_secret_key (u : Str) (fs : FS) (keyname : Str) : Str × FS :=
  let key := (u.filter (fun c => c ≠ '-')).take SECRET_KEY_LENGTH
  (key, writeFS (get_secret_key_location keyname) (.str key) fs)

/-- `LocalState.get_secret_key`: opens the secret file and reads it;
`open` raises `IOError` when the file is absent.  The secret file only
ever holds raw text in the modelled flows. -/
def get_secret_key (fs : FS) (keyname : Str) : Except PyError Str :=
  match fs (get_secret_key_location keyname) with
  | some (.str s) => .ok s
  | some _ => .error (.ioError (get_secret_key_location keyname))
  | none => .error (.ioError (get_secret_key_location keyname))

/-- A regular expression over the fragment used by `LocalState.obscure_dict`:
a character class, or an alternation of two patterns. -/
inductive Rx where
  | cls (cs : List Char)
  | alt (a b : Rx)

/-- `re.match(pattern, s)` tested for success: does the pattern match at
the very beginning of the string?  A character class consumes one
character; an alternation tries both branches. -/
def rx_match : Rx → Str → Bool
  | .cls _, [] => false
  | .cls cs, c :: _ => cs.contains c
  | .alt a b, s => rx_match a s || rx_match b s

/-- The compiled pattern of `obscure_dict`: `re.compile('[EC2]|[ec2]')`. -/
def obscure_regex : Rx :=
  .alt (.cls (['E', 'C', '2'])) (.cls (['e', 'c', '2']))

/-- `LocalState.obscure_str`: a string shorter than 4 characters is
returned unchanged; otherwise all but the trailing 4 characters are
replaced by asterisks.  `str_to_obscure[len-4:len]` is the Python slice,
i.e. drop `len-4` then take `len-(len-4)` characters. -/
def obscure_str (s : Str) : Str :=
  if s.length < 4 then s
  else
    let last_four := (s.drop (s.length - 4)).take (s.length - (s.length - 4))
    List.replicate (s.length - 4) '*' ++ last_four

/-- `LocalState.obscure_dict`: the dict is modelled as its (ordered)
association list of entries; each entry whose key matches the compiled
pattern has its value obscured, the other entries are copied as-is. -/
def obscure_dict : List (Str × Str) → List (Str × Str)
  | [] => []
  | (k, v) :: rest =>
      (k, if rx_match obscure_regex k then obscure_str v else v) :: obscure_dict rest

/-- The fields of the argparse `Namespace` that
`LocalState.update_local_metadata` reads.  `infrastructure` is `None` or a
string in the source. -/
structure DeployOptions where
  keyname : Str
  table : Str
  infrastructure : Option Str
  group : Str
deriving DecidableEq

/-- Python `a or b` for an optional string `a`: `None` and the empty
string are falsy. -/
def pyOr (a : Option Str) (b : Str) : Str :=
  match a with
  | none => b
  | some s => if s = [] then b else s

/-- `LocalState.update_local_metadata`: reads the secret key (to build the
AppController client, and again for the yaml contents), then writes the
locations.yaml scalar record followed by the locations.json roster.  The
network answers (`get_all_public_ips` mapped through `str`, and
`get_role_info`) and `node_layout.db_master().id` are explicit parameters
`all_ips`, `role_info` and `db_master_id`. -/
def update_local_metadata (fs : FS) (options : DeployOptions)
    (db_master_id : Str) (all_ips : List Str) (role_info : List Node)
    (host instance_id : Str) : Except PyError FS := do
  let _secret_for_acc ← get_secret_key fs options.keyname
  let infrastructure := pyOr options.infrastructure (("xen").toList)
  let secret ← get_secret_key fs options.keyname
  let yaml_contents : YamlContents :=
    { load_balancer := host
      instance_id := instance_id
      table := options.table
      secret := secret
      db_master := db_master_id
      ips := all_ips
      infrastructure := infrastructure
      group := options.group }
  let fs1 := writeFS (get_locations_yaml_location options.keyname)
    (.yaml yaml_contents) fs
  let fs2 := writeFS (get_locations_json_location options.keyname)
    (.json role_info) fs1
  return fs2

/-- `LocalState.get_local_nodes_info`: opens the locations.json file
(raising `IOError` when absent) and decodes the roster through the JSON
codec. -/
def get_local_nodes_info (fs : FS) (keyname : Str) :
    Except PyError (List Node) :=
  match fs (get_locations_json_location keyname) with
  | some (.json roster) => .ok roster
  | some _ => .error (.ioError (get_locations_json_location keyname))
  | none => .error (.ioError (get_locations_json_location keyname))

/-- The message of the `AppScaleException` raised by
`get_host_with_role`: the result of `"Couldn't find a {0} node.".format(role)`. -/
def roleNotFoundMsg (role : Str) : Str :=
  ("Couldn").toList ++ [apostrophe] ++ ("t find a ").toList ++ role
    ++ (" node.").toList

/-- The `for node in nodes` loop of `LocalState.get_host_with_role`,
followed by its `raise AppScaleException` when no node matched. -/
def find_host_with_role (nodes : List Node) (role : Str) :
    Except PyError Str :=
  match nodes with
  | [] => .error (.appScaleError (roleNotFoundMsg role))
  | node :: rest =>
      if node.jobs.contains role then .ok node.public_ip
      else find_host_with_role rest role

/-- `LocalState.get_host_with_role`. -/
def get_host_with_role (fs : FS) (keyname role : Str) :
    Except PyError Str := do
  let nodes ← get_local_nodes_info fs keyname
  find_host_with_role nodes role

/-- The `for node in ...` loop of `LocalState.get_host_for_role`: when no
node carries the role the function falls off the loop and Python returns
`None`. -/
def find_host_for_role (nodes : List Node) (role : Str) : Option Str :=
  match nodes with
  | [] => none
  | node :: rest =>
      if node.jobs.contains role then some node.public_ip
      else find_host_for_role rest role

/-- `LocalState.get_host_for_role`. -/
def get_host_for_role (fs : FS) (keyname role : Str) :
    Except PyError (Option Str) := do
  let nodes ← get_local_nodes_info fs keyname
  return find_host_for_role nodes role

/-- `LocalState.cleanup_appscale_files`: removes the locations.yaml file,
the locations.json file and the secret file, in that order, with bare
`os.remove` calls (each raises `OSError` when its file is absent). -/
def cleanup_appscale_files (fs : FS) (keyname : Str) : Except PyError FS := do
  let fs1 ← removeFS (get_locations_yaml_location keyname) fs
  let fs2 ← removeFS (get_locations_json_location keyname) fs1
  removeFS (get_secret_key_location keyname) fs2

/-- The message of the `ShellException` raised by `LocalState.shell`:
the result of `'Could not execute command: {0}'.format(command)`. -/
def couldNotExecuteMsg (command : Str) : Str :=
  ("Could not execute command: ").toList ++ command

/-- The `while tries_left` loop of `LocalState.shell`.  `ex i` is the
outcome (return code, captured standard output) of the `i`-th execution of
the command — the external process is an explicit parameter.  Returns the
result together with the number of times the command was executed. -/
def shell_loop (ex : Nat → Nat × Str) (command : Str) (i : Nat) :
    Nat → Except PyError Str × Nat
  | 0 => (.error (.shellError (couldNotExecuteMsg command)), 0)
  | n + 1 =>
      let r := ex i
      if r.1 = 0 then (.ok r.2, 1)
      else
        let rest := shell_loop ex command (i + 1) n
        (rest.1, rest.2 + 1)

/-- `LocalState.shell`: runs the command up to `num_retries` times (the
loop counts down from `num_retries`), returning the captured standard
output of the first execution that exits 0, and raising `ShellException`
after exhausting the attempts.  `is_verbose` only controls logging, a side
effect outside the model. -/
def shell (ex : Nat → Nat × Str) (command : Str) (is_verbose : Bool)
    (num_retries : Nat) : Except PyError Str × Nat :=
  shell_loop ex command 0 num_retries

/-! Concrete fixtures used by witnesses and counterexamples. -/

/-- The empty filesystem. -/
def emptyFS : FS := fun _ => none

/-- A sample keyname. -/
def exKeyname : Str := ("appscale").toList

/-- The roster of the spec's worked example:
`[{ip:"10.0.0.1", jobs:["db_master"]}, {ip:"10.0.0.2", jobs:["db_master","login"]}]`
(the example gives no private addresses, so they are empty). -/
def exRoster : List Node :=
  [{ public_ip := ("10.0.0.1").toList, private_ip := [],
     jobs := [("db_master").toList] },
   { public_ip := ("10.0.0.2").toList, private_ip := [],
     jobs := [("db_master").toList, ("login").toList] }]

/-- A filesystem whose locations.json file for `exKeyname` holds
`exRoster`. -/
def exFS : FS :=
  writeFS (get_locations_json_location exKeyname) (.json exRoster) emptyFS

/-! Helper lemmas about the role-lookup loops. -/

/-- The lookup loop of `get_host_with_role` is first-match search: it
agrees with `List.find?` over the predicate "the node's job list contains
the role". -/
theorem find_host_with_role_eq_find? (nodes : List Node) (role : Str) :
    find_host_with_role nodes role =
      match nodes.find? (fun nd => nd.jobs.contains role) with
      | some nd => .ok nd.public_ip
      | none => .error (.appScaleError (roleNotFoundMsg role)) := by
  induction nodes with
  | nil => rfl
  | cons nd rest ih =>
      by_cases hj : role ∈ nd.jobs
      · simp [find_host_with_role, List.find?, hj]
      · simp [find_host_with_role, List.find?, hj, ih]

/-- When no node advertises the role, the `get_host_with_role` loop falls
through to the raise. -/
theorem find_host_with_role_not_found (nodes : List Node) (role : Str)
    (h : ∀ nd ∈ nodes, nd.jobs.contains role = false) :
    find_host_with_role nodes role =
      .error (.appScaleError (roleNotFoundMsg role)) := by
  induction nodes with
  | nil => rfl
  | cons nd rest ih =>
      have hnd := h nd (by simp)
      simp only [find_host_with_role, hnd, if_neg]
      simp only [Bool.false_eq_true, if_false]
      exact ih (fun x hx => h x (by simp [hx]))

/-- When no node advertises the role, the `get_host_for_role` loop falls
through and the function returns `None`. -/
theorem find_host_for_role_not_found (nodes : List Node) (role : Str)
    (h : ∀ nd ∈ nodes, nd.jobs.contains role = false) :
    find_host_for_role nodes role = none := by
  induction nodes with
  | nil => rfl
  | cons nd rest ih =>
      have hnd := h nd (by simp)
      simp only [find_host_for_role, hnd, Bool.false_eq_true, if_false]
      exact ih (fun x hx => h x (by simp [hx]))

/-- Reading the roster back from a filesystem that holds it. -/
theorem get_local_nodes_info_of_json (fs : FS) (keyname : Str)
    (nodes : List Node)
    (hfs : fs (get_locations_json_location keyname) = some (.json nodes)) :
    get_local_nodes_info fs keyname = .ok nodes := by
  simp [get_local_nodes_info, hfs]

/-- The role the worked example queries first. -/
def loginRole : Str := ("login").toList

/-- The role the worked example queries second (hosted by no node). -/
def missingRole : Str := ("missing").toList

/-- C1 (amended): when no node of the stored roster advertises the
requested role, `get_host_with_role` raises `AppScaleException`, but
`get_host_for_role` does NOT fail: it falls off its loop and returns
Python `None` (modelled as a successful `none`), the very null/default the
original claim rules out. -/
theorem spec_C1 (fs : FS) (keyname role : Str) (nodes : List Node)
    (hfs : fs (get_locations_json_location keyname) = some (.json nodes))
    (hnone : ∀ nd ∈ nodes, nd.jobs.contains role = false) :
    get_host_with_role fs keyname role =
        .error (.appScaleError (roleNotFoundMsg role)) ∧
      get_host_for_role fs keyname role = .ok none := by
  have hinfo := get_local_nodes_info_of_json fs keyname nodes hfs
  constructor
  · show (get_local_nodes_info fs keyname).bind (fun nodes => find_host_with_role nodes role) = _
    rw [hinfo]
    exact find_host_with_role_not_found nodes role hnone
  · show (get_local_nodes_info fs keyname).bind
      (fun nodes => Except.ok (find_host_for_role nodes role)) = _
    rw [hinfo]
    show Except.ok (find_host_for_role nodes role) = Except.ok none
    rw [find_host_for_role_not_found nodes role hnone]

/-- Witness for C1 (amended), at the worked-example roster queried for a
role no node advertises. -/
theorem spec_C1_witness :
    get_host_with_role exFS exKeyname missingRole =
        .error (.appScaleError (roleNotFoundMsg missingRole)) ∧
      get_host_for_role exFS exKeyname missingRole = .ok none :=
  spec_C1 exFS exKeyname missingRole exRoster (by decide) (by decide)

/-- Counterexample to C1 as stated: on a roster advertising the queried
role nowhere, `get_host_for_role` returns Python `None` (a successful
`none`), not an error value — refuting "every role-lookup operation …
raises/returns an error value and never returns null". -/
theorem spec_C1_counterexample :
    get_host_for_role exFS exKeyname missingRole = .ok none := by
  decide

/-- C4: `get_host_with_role` is first-match search over the stored roster
(in file order), returning the public address of the first node whose job
set contains the role and raising `AppScaleException` otherwise; on the
worked-example roster, querying `login` returns `10.0.0.2` and querying
`missing` fails with the role-not-found error. -/
theorem spec_C4 :
    (∀ (fs : FS) (keyname role : Str) (nodes : List Node),
        fs (get_locations_json_location keyname) = some (.json nodes) →
        get_host_with_role fs keyname role =
          match nodes.find? (fun nd => nd.jobs.contains role) with
          | some nd => .ok nd.public_ip
          | none => .error (.appScaleError (roleNotFoundMsg role))) ∧
      get_host_with_role exFS exKeyname loginRole =
        .ok (("10.0.0.2").toList) ∧
      get_host_with_role exFS exKeyname missingRole =
        .error (.appScaleError (roleNotFoundMsg missingRole)) := by
  refine ⟨fun fs keyname role nodes hfs => ?_, by decide, by decide⟩
  show (get_local_nodes_info fs keyname).bind (fun nodes => find_host_with_role nodes role) = _
  rw [get_local_nodes_info_of_json fs keyname nodes hfs]
  exact find_host_with_role_eq_find? nodes role

/-- Witness for C4, instantiating its universally quantified conjunct at
the worked-example filesystem and the `login` role. -/
theorem spec_C4_witness :
    get_host_with_role exFS exKeyname loginRole =
      match exRoster.find? (fun nd => nd.jobs.contains loginRole) with
      | some nd => .ok nd.public_ip
      | none => .error (.appScaleError (roleNotFoundMsg loginRole)) :=
  spec_C4.1 exFS exKeyname loginRole exRoster (by decide)

/-! Path distinctness of the three per-keyname metadata files. -/

/-- For every keyname the yaml and json locations differ. -/
theorem yaml_ne_json (keyname : Str) :
    get_locations_yaml_location keyname ≠ get_locations_json_location keyname := by
  intro h
  unfold get_locations_yaml_location get_locations_json_location at h
  have h2 := List.append_cancel_left h
  exact absurd h2 (by decide)

/-- For every keyname the secret and yaml locations differ (their lengths
differ by 8). -/
theorem secret_ne_yaml (keyname : Str) :
    get_secret_key_location keyname ≠ get_locations_yaml_location keyname := by
  intro h
  have hl := congrArg List.length h
  simp only [get_secret_key_location, get_locations_yaml_location,
    List.length_append] at hl
  have e1 : ((".secret").toList).length = 7 := by decide
  have e2 : (("locations-").toList).length = 10 := by decide
  have e3 : ((".yaml").toList).length = 5 := by decide
  rw [e1, e2, e3] at hl
  omega

/-- For every keyname the secret and json locations differ (their lengths
differ by 8). -/
theorem secret_ne_json (keyname : Str) :
    get_secret_key_location keyname ≠ get_locations_json_location keyname := by
  intro h
  have hl := congrArg List.length h
  simp only [get_secret_key_location, get_locations_json_location,
    List.length_append] at hl
  have e1 : ((".secret").toList).length = 7 := by decide
  have e2 : (("locations-").toList).length = 10 := by decide
  have e3 : ((".json").toList).length = 5 := by decide
  rw [e1, e2, e3] at hl
  omega

/-- A successful `os.remove`: when the file exists, the result maps its
path to nothing and leaves every other path unchanged. -/
theorem removeFS_of_some (p : Str) (fs : FS) (c : Content)
    (h : fs p = some c) :
    removeFS p fs = .ok (fun q => if q = p then none else fs q) := by
  simp [removeFS, h]

/-- C2 (amended): when the locations yaml file, the locations json file
and the secret file are all present, `cleanup_appscale_files` succeeds and
the resulting filesystem lacks exactly those three files (all other paths
are untouched).  The idempotence half of the original claim is false: each
deletion is a bare `os.remove`, which raises when its file is already
absent (see the counterexample). -/
theorem spec_C2 (fs : FS) (keyname : Str)
    (hy : (fs (get_locations_yaml_location keyname)).isSome = true)
    (hj : (fs (get_locations_json_location keyname)).isSome = true)
    (hs : (fs (get_secret_key_location keyname)).isSome = true) :
    cleanup_appscale_files fs keyname = .ok (fun q =>
      if q = get_secret_key_location keyname then none
      else if q = get_locations_json_location keyname then none
      else if q = get_locations_yaml_location keyname then none
      else fs q) := by
  obtain ⟨cy, hcy⟩ := Option.isSome_iff_exists.mp hy
  obtain ⟨cj, hcj⟩ := Option.isSome_iff_exists.mp hj
  obtain ⟨cs, hcs⟩ := Option.isSome_iff_exists.mp hs
  have hJY : get_locations_json_location keyname ≠
      get_locations_yaml_location keyname :=
    fun h => yaml_ne_json keyname h.symm
  have hSY := secret_ne_yaml keyname
  have hSJ := secret_ne_json keyname
  have h1 := removeFS_of_some _ fs cy hcy
  have hf1J : (fun q => if q = get_locations_yaml_location keyname then none
      else fs q) (get_locations_json_location keyname) = some cj := by
    simp only [if_neg hJY]
    exact hcj
  have h2 := removeFS_of_some (get_locations_json_location keyname)
    (fun q => if q = get_locations_yaml_location keyname then none else fs q)
    cj hf1J
  have hf2S : (fun q => if q = get_locations_json_location keyname then none
        else (fun q => if q = get_locations_yaml_location keyname then none
          else fs q) q) (get_secret_key_location keyname) = some cs := by
    simp only [if_neg hSJ, if_neg hSY]
    exact hcs
  have h3 := removeFS_of_some (get_secret_key_location keyname)
    (fun q => if q = get_locations_json_location keyname then none
      else (fun q => if q = get_locations_yaml_location keyname then none
        else fs q) q)
    cs hf2S
  show (removeFS (get_locations_yaml_location keyname) fs).bind _ = _
  rw [h1]
  show (removeFS (get_locations_json_location keyname) _).bind _ = _
  rw [h2]
  exact h3

/-- Witness for C2 (amended): a filesystem holding a file at every path
satisfies the three presence hypotheses, and cleanup removes exactly the
three metadata files. -/
theorem spec_C2_witness :
    ((fun _ => some (Content.str []) : FS)
        (get_locations_yaml_location exKeyname)).isSome = true ∧
      ((fun _ => some (Content.str [])  : FS)
        (get_locations_json_location exKeyname)).isSome = true ∧
      ((fun _ => some (Content.str [])  : FS)
        (get_secret_key_location exKeyname)).isSome = true ∧
      cleanup_appscale_files (fun _ => some (Content.str [])) exKeyname =
        .ok (fun q =>
          if q = get_secret_key_location exKeyname then none
          else if q = get_locations_json_location exKeyname then none
          else if q = get_locations_yaml_location exKeyname then none
          else some (Content.str [])) :=
  ⟨rfl, rfl, rfl,
    spec_C2 (fun _ => some (Content.str [])) exKeyname rfl rfl rfl⟩

/-- Counterexample to C2 as stated: invoking cleanup when the files are
already absent IS an error at this layer — on the empty filesystem the
first bare `os.remove` (of the locations yaml file) raises `OSError`
instead of succeeding idempotently. -/
theorem spec_C2_counterexample :
    cleanup_appscale_files emptyFS exKeyname =
      .error (.osError (get_locations_yaml_location exKeyname)) := rfl

/-! The shell retry loop. -/

/-- When every execution fails, the retry loop runs its command once per
unit of fuel and then raises. -/
theorem shell_loop_all_fail (ex : Nat → Nat × Str) (command : Str)
    (hfail : ∀ j, (ex j).1 ≠ 0) :
    ∀ n i, shell_loop ex command i n =
      (.error (.shellError (couldNotExecuteMsg command)), n) := by
  intro n
  induction n with
  | zero => intro i; rfl
  | succ n ih =>
      intro i
      simp only [shell_loop, if_neg (hfail i), ih (i + 1)]

/-- C3: a command whose every execution exits nonzero is executed exactly
`DEFAULT_NUM_RETRIES = 5` times (five total attempts, counting the first)
and `shell` then raises `ShellException` carrying the command text. -/
theorem spec_C3 (ex : Nat → Nat × Str) (command : Str) (is_verbose : Bool)
    (hfail : ∀ j, (ex j).1 ≠ 0) :
    shell ex command is_verbose DEFAULT_NUM_RETRIES =
      (.error (.shellError (couldNotExecuteMsg command)), 5) :=
  shell_loop_all_fail ex command hfail DEFAULT_NUM_RETRIES 0

/-- Witness for C3: a command that always exits 1 is attempted five times
and the raised error carries the command. -/
theorem spec_C3_witness :
    shell (fun _ => (1, [])) (("ls").toList) false DEFAULT_NUM_RETRIES =
      (.error (.shellError (couldNotExecuteMsg (("ls").toList))), 5) :=
  spec_C3 (fun _ => (1, [])) (("ls").toList) false (fun _ => Nat.one_ne_zero)

/-- If the `m`-th execution (0-based) is the first to exit 0 and there is
fuel to reach it, the loop stops there and returns exactly that
execution's captured output, having executed the command `m + 1` times. -/
theorem shell_loop_first_success (ex : Nat → Nat × Str) (command : Str) :
    ∀ n i m, m < n → (∀ j, j < m → (ex (i + j)).1 ≠ 0) →
      (ex (i + m)).1 = 0 →
      shell_loop ex command i n = (.ok (ex (i + m)).2, m + 1) := by
  intro n
  induction n with
  | zero => intro i m hm; exact absurd hm (Nat.not_lt_zero m)
  | succ n ih =>
      intro i m hm hfail hsucc
      cases m with
      | zero =>
          simp only [Nat.add_zero] at hsucc
          simp only [shell_loop, if_pos hsucc, Nat.add_zero]
      | succ m =>
          have h0 : (ex i).1 ≠ 0 := by
            have := hfail 0 (Nat.succ_pos m)
            simpa using this
          have hrest := ih (i + 1) m (Nat.lt_of_succ_lt_succ hm)
            (fun j hj => by
              have := hfail (j + 1) (Nat.succ_lt_succ hj)
              simpa [Nat.add_assoc, Nat.add_comm 1 j] using this)
            (by
              have : i + 1 + m = i + (m + 1) := by omega
              rw [this]
              exact hsucc)
          simp only [shell_loop, if_neg h0, hrest]
          have : i + 1 + m = i + (m + 1) := by omega
          rw [this]

/-- C5: if the `k`-th attempt (1-based, `k = m + 1`, `1 ≤ k ≤ max_retries`)
is the first to exit 0, `shell` stops retrying, executes the command
exactly `k` times, and returns exactly that attempt's captured standard
output — nothing from earlier failed attempts is accumulated. -/
theorem spec_C5 (ex : Nat → Nat × Str) (command : Str) (is_verbose : Bool)
    (num_retries m : Nat) (hm : m < num_retries)
    (hfail : ∀ j, j < m → (ex j).1 ≠ 0) (hsucc : (ex m).1 = 0) :
    shell ex command is_verbose num_retries = (.ok (ex m).2, m + 1) := by
  have h := shell_loop_first_success ex command num_retries 0 m hm
    (fun j hj => by simpa using hfail j hj) (by simpa using hsucc)
  simpa [shell] using h

/-- Witness for C5: a command failing on the first two attempts and
succeeding on the third returns the third attempt's output, with three
executions. -/
theorem spec_C5_witness :
    shell (fun i => if i = 2 then (0, (("third").toList)) else (1, []))
        (("ls").toList) false 5 =
      (.ok (("third").toList), 3) :=
  spec_C5 (fun i => if i = 2 then (0, (("third").toList)) else (1, []))
    (("ls").toList) false 5 2 (by decide) (by decide) (by decide)

/-- C6: `ensure_appscale_isnt_running` raises `BadConfigurationException`
exactly when the locations yaml file for the keyname exists and `force` is
false; in every other case it succeeds, and on success the filesystem is
returned unchanged (its only interaction is the existence check). -/
theorem spec_C6 (fs : FS) (keyname : Str) (force : Bool) :
    ensure_appscale_isnt_running fs keyname force =
      (if force = false ∧ (fs (get_locations_yaml_location keyname)).isSome = true
       then .error (.badConfiguration alreadyRunningMsg)
       else .ok fs) := by
  unfold ensure_appscale_isnt_running
  cases force with
  | false =>
      cases hex : (fs (get_locations_yaml_location keyname)).isSome with
      | false => simp [hex]
      | true => simp [hex]
  | true => simp

/-- C7: generating a secret key and reading it back for the same keyname
returns exactly the generated key, and — for any canonical `uuid.uuid4()`
string, whose dash-stripped form has at least 32 characters — the key is
exactly `SECRET_KEY_LENGTH = 32` characters long. -/
theorem spec_C7 (fs : FS) (keyname u : Str)
    (hu : SECRET_KEY_LENGTH ≤ (u.filter (fun c => c ≠ '-')).length) :
    get_secret_key (generate_secret_key u fs keyname).2 keyname =
        .ok (generate_secret_key u fs keyname).1 ∧
      (generate_secret_key u fs keyname).1.length = SECRET_KEY_LENGTH := by
  constructor
  · simp [get_secret_key, generate_secret_key, writeFS]
  · simp only [generate_secret_key, List.length_take]
    exact Nat.min_eq_left hu

/-- Witness for C7, at a canonical uuid4 string: its dash-stripped form
has 32 characters, the round trip returns the generated key, and the key
has 32 characters. -/
theorem spec_C7_witness :
    SECRET_KEY_LENGTH ≤
        (((("00000000-0000-4000-8000-000000000000").toList)).filter
          (fun c => c ≠ '-')).length ∧
      get_secret_key
          (generate_secret_key (("00000000-0000-4000-8000-000000000000").toList)
            emptyFS exKeyname).2 exKeyname =
        .ok (generate_secret_key (("00000000-0000-4000-8000-000000000000").toList)
          emptyFS exKeyname).1 ∧
      (generate_secret_key (("00000000-0000-4000-8000-000000000000").toList)
        emptyFS exKeyname).1.length = SECRET_KEY_LENGTH :=
  ⟨by decide,
    spec_C7 emptyFS exKeyname (("00000000-0000-4000-8000-000000000000").toList)
      (by decide)⟩

/-- C8: writing the deployment metadata with `update_local_metadata` (the
roster being the AppController's `get_role_info` answer) and reading it
back with `get_local_nodes_info` for the same keyname yields a roster
structurally equal to the one written. -/
theorem spec_C8 (fs : FS) (options : DeployOptions) (db_master_id : Str)
    (all_ips : List Str) (role_info : List Node) (host instance_id : Str)
    (fs' : FS)
    (h : update_local_metadata fs options db_master_id all_ips role_info
      host instance_id = .ok fs') :
    get_local_nodes_info fs' options.keyname = .ok role_info := by
  unfold update_local_metadata at h
  cases hsec : get_secret_key fs options.keyname with
  | error e =>
      rw [hsec] at h
      exact Except.noConfusion h
  | ok s =>
      rw [hsec] at h
      injection h with h2
      subst h2
      simp [get_local_nodes_info, writeFS]

/-- Witness fixtures for C8: a filesystem holding a secret everywhere, and
concrete deployment parameters. -/
def wOptions : DeployOptions :=
  { keyname := exKeyname, table := ("cassandra").toList,
    infrastructure := none, group := ("appscale").toList }

/-- The secret stored on the witness filesystem for C8. -/
def wSecret : Str := ("supersecret").toList

/-- The witness filesystem for C8: every path holds the secret text. -/
def wFS : FS := fun _ => some (Content.str wSecret)

/-- The yaml record `update_local_metadata` writes for the C8 witness
parameters. -/
def wYaml : YamlContents :=
  { load_balancer := ("10.0.0.1").toList, instance_id := ("i-12345").toList,
    table := wOptions.table, secret := wSecret,
    db_master := ("node-1").toList, ips := [("10.0.0.1").toList],
    infrastructure := ("xen").toList, group := wOptions.group }

/-- Witness for C8: at concrete deployment parameters, the metadata write
followed by the roster read returns the roster that was written. -/
theorem spec_C8_witness :
    get_local_nodes_info
        (writeFS (get_locations_json_location exKeyname) (Content.json exRoster)
          (writeFS (get_locations_yaml_location exKeyname) (Content.yaml wYaml)
            wFS)) exKeyname =
      .ok exRoster :=
  spec_C8 wFS wOptions (("node-1").toList) ([("10.0.0.1").toList]) exRoster
    (("10.0.0.1").toList) (("i-12345").toList) _ rfl

/-- The claim's statement of the masking transform, written from the
spec's words: a value shorter than 4 characters is returned unmodified,
any other value is replaced by asterisks except its trailing 4
characters. -/
def maskSensitiveValueSpec (v : Str) : Str :=
  if v.length < 4 then v
  else List.replicate (v.length - 4) '*' ++ v.drop (v.length - 4)

/-- The source's `obscure_str` computes exactly the spec's masking
transform (the Python slice `[len-4:len]` is precisely the trailing 4
characters). -/
theorem obscure_str_eq_spec (v : Str) :
    obscure_str v = maskSensitiveValueSpec v := by
  unfold obscure_str maskSensitiveValueSpec
  by_cases h : v.length < 4
  · simp [h]
  · simp only [h, if_false]
    have hlen : v.length - (v.length - 4) = (v.drop (v.length - 4)).length :=
      (List.length_drop _ _).symm
    rw [hlen, List.take_length]

/-- C9: `obscure_dict` returns a copy of its input mapping in which
every entry whose key matches the credential pattern has its value masked
per the spec's transform (asterisks except the trailing 4 characters,
values shorter than 4 characters unmodified), other entries being copied
untouched; in particular `{"ec2_secret_key": "ABCD1234EFGH"}` becomes
`{"ec2_secret_key": "********EFGH"}`. -/
theorem spec_C9 :
    (∀ d, obscure_dict d = d.map (fun p =>
        (p.1, if rx_match obscure_regex p.1 then maskSensitiveValueSpec p.2
          else p.2))) ∧
      obscure_dict [((("ec2_secret_key").toList), (("ABCD1234EFGH").toList))] =
        [((("ec2_secret_key").toList), (("********EFGH").toList))] ∧
      (∀ v : Str, v.length < 4 → obscure_str v = v) := by
  refine ⟨?_, by decide, ?_⟩
  · intro d
    induction d with
    | nil => rfl
    | cons p rest ih =>
        cases p with
        | mk k v => simp [obscure_dict, ih, obscure_str_eq_spec]
  · intro v hv
    simp [obscure_str, hv]

/-- Witness for C9: a 3-character value is returned unmodified by
`obscure_str`. -/
theorem spec_C9_witness :
    obscure_str (("abc").toList) = ("abc").toList :=
  spec_C9.2.2 (("abc").toList) (by decide)

/-- C10: the key-selection predicate of `obscure_dict` — success of
`re.match('[EC2]|[ec2]', key)` — holds exactly when the key's first
character is one of `E`, `C`, `2`, `e`, `c`; consequently non-credential
keys starting with those characters (`cert`, `count`) are masked while
credential keys such as `aws_secret` pass through unmodified, and the
output mapping always has exactly the input's keys. -/
theorem spec_C10 :
    (∀ k : Str, rx_match obscure_regex k = true ↔
        ∃ c t, k = c :: t ∧
          (c = 'E' ∨ c = 'C' ∨ c = '2' ∨ c = 'e' ∨ c = 'c')) ∧
      (∀ d, (obscure_dict d).map Prod.fst = d.map Prod.fst) ∧
      obscure_dict [((("cert").toList), (("ABCDEFGH").toList))] =
        [((("cert").toList), (("****EFGH").toList))] ∧
      obscure_dict [((("count").toList), (("12345678").toList))] =
        [((("count").toList), (("****5678").toList))] ∧
      obscure_dict [((("aws_secret").toList), (("TOPSECRET").toList))] =
        [((("aws_secret").toList), (("TOPSECRET").toList))] := by
  refine ⟨?_, ?_, by decide, by decide, by decide⟩
  · intro k
    cases k with
    | nil => simp [rx_match, obscure_regex]
    | cons c t =>
        constructor
        · intro h
          refine ⟨c, t, rfl, ?_⟩
          simp [rx_match, obscure_regex, List.contains] at h
          tauto
        · rintro ⟨c', t', heq, hc⟩
          have hcc : c = c' := by
            injection heq with h1 _
          subst hcc
          rcases hc with h | h | h | h | h <;>
            simp [rx_match, obscure_regex, List.contains, h]
  · intro d
    induction d with
    | nil => rfl
    | cons p rest ih =>
        cases p with
        | mk k v => simp [obscure_dict, ih]

/-- Witness for C10: the predicate accepts a key starting with `e`. -/
theorem spec_C10_witness :
    rx_match obscure_regex (("ec2_zone").toList) = true :=
  (spec_C10.1 (("ec2_zone").toList)).mpr
    ⟨'e', (("c2_zone").toList), by decide, by decide⟩
